import Mathlib

/-!
Verification development for the Telegram Loyalty Bot worker.

This file is a shallow embedding of the worker source (`src/index.js`).
The handler is modelled as a pure state-passing function: the persistent
key-value store is threaded explicitly, every external interaction
(key-value get/put, platform membership query, event-config listing fetch,
reward trigger, chat message send) is recorded in an effect trace, and the
results of external calls are supplied by an `Oracle` — a per-run summary
of how the outside world answered each call.  Calls that the source wraps
in `try`/`catch` and degrades (admin check, resolver, reward trigger,
message send) are modelled as total; calls whose promise rejection the
source does NOT catch (the key-value store operations inside
`handleMessage`) are modelled as possibly throwing, which propagates to
the dispatcher's catch-all.
-/

namespace TelegramLoyaltyBot

/-- JS string-or-absent value: `none` models JavaScript `undefined` / `null`. -/
abbrev JStr := Option String

/-- JS truthiness of a string-valued expression: `undefined`, `null` and `""` are falsy. -/
def jsTruthy : JStr → Bool
  | none => false
  | some s => !(s == "")

/-- JS template-literal interpolation of a possibly-undefined string value. -/
def jsStr : JStr → String
  | none => "undefined"
  | some s => s

/-- JS `a || b` on string-valued expressions: `a` when truthy, else `b`. -/
def jsOr (a b : JStr) : JStr :=
  if jsTruthy a then a else b

/-- Helper: `pre` is a prefix of `l` (character lists, executable). -/
def listStarts : List Char → List Char → Bool
  | [], _ => true
  | _ :: _, [] => false
  | p :: ps, c :: cs => p == c && listStarts ps cs

/-- JS `s.startsWith(pre)`. -/
def jsStartsWith (s pre : String) : Bool := listStarts pre.toList s.toList

/-- Helper: `sub` occurs contiguously inside `l`. -/
def listIncl (sub : List Char) : List Char → Bool
  | [] => sub.isEmpty
  | c :: rest => listStarts sub (c :: rest) || listIncl sub rest

/-- JS `s.includes(sub)`. -/
def jsIncl (s sub : String) : Bool := listIncl sub.toList s.toList

/-- JS `e?.includes(sub)` used as a branch condition: `undefined` short-circuits to falsy
(source lines 151-153 test `result.error?.includes(...)`). -/
def errIncludes (e : JStr) (sub : String) : Bool :=
  match e with
  | none => false
  | some s => jsIncl s sub

/-- Splitter for JS `text.split(" ")`: single-character separator, empty fields kept. -/
def splitSp : List Char → List (List Char)
  | [] => [[]]
  | c :: rest =>
    if c == Char.ofNat 32 then [] :: splitSp rest
    else
      match splitSp rest with
      | [] => [[c]]
      | g :: gs => (c :: g) :: gs

/-- JS `text.split(" ")` (source lines 179 and 213). -/
def jsSplitSpace (s : String) : List String := (splitSp s.toList).map String.mk

/-- One step of `escapeHtml`: the four sequential global replaces of the source
(`&`, `<`, `>`, `"`, in that order) are equivalent to this per-character expansion,
because the `&` replace runs first and no later replacement output contains
`<`, `>` or `"`. -/
def escChar (c : Char) : List Char :=
  if c == Char.ofNat 38 then "&amp;".toList
  else if c == Char.ofNat 60 then "&lt;".toList
  else if c == Char.ofNat 62 then "&gt;".toList
  else if c == Char.ofNat 34 then "&quot;".toList
  else [c]

/-- Character-list map-concat for `escapeHtml`. -/
def escList : List Char → List Char
  | [] => []
  | c :: rest => escChar c ++ escList rest

/-- `escapeHtml` (source lines 340-347): falsy input gives the empty string. -/
def escapeHtml (t : JStr) : String :=
  match t with
  | none => ""
  | some s => if s == "" then "" else String.mk (escList s.toList)

/-- A chat-platform user (`message.from` / entries of `new_chat_members`). -/
structure User where
  id : Int
  is_bot : Bool
  username : JStr
  first_name : JStr
  last_name : JStr
deriving DecidableEq

/-- The chat a message was posted in. -/
structure Chat where
  id : Int
deriving DecidableEq

/-- A webhook message. `text` is `none` when the update carries no text field;
`new_chat_members` is `none` when the field is absent or null (a present empty
array is `some []`, which is truthy in JS). -/
structure Message where
  chat : Chat
  from_ : User
  text : JStr
  new_chat_members : Option (List User)
deriving DecidableEq

/-- A webhook update; only the `message` field is examined (source lines 84-92). -/
structure Update where
  message : Option Message
deriving DecidableEq

/-- Worker environment bindings. `TELEGRAM_BOT_KV` records whether the key-value
namespace binding is present. -/
structure Env where
  WEBHOOK_SECRET : JStr
  TELEGRAM_BOT_TOKEN : JStr
  BRAND_ID : JStr
  LOYALTEEZ_API_URL : JStr
  TELEGRAM_BOT_KV : Bool
deriving DecidableEq

/-- One entry of the remote event-config listing (fields read at source
lines 391-403). Absent fields are `none`. -/
structure EventConfig where
  eventNameMapping : JStr
  eventId : JStr
  eventType : JStr
deriving DecidableEq

/-- Parsed body of the `getChatMember` response: `ok` flag and
`result.status` (source lines 260-264). -/
structure AdminData where
  ok : Bool
  status : String
deriving DecidableEq

deriving instance DecidableEq for Except

/-- Outcome of the event-config listing fetch: `ok` is `response.ok`,
`status` the HTTP status, and `events` the `data.events || []` array —
`Except.error ()` models an unparsable body or a non-iterable field,
both of which the source catches. -/
structure ConfigResp where
  ok : Bool
  status : Nat
  events : Except Unit (List EventConfig)
deriving DecidableEq

/-- Result object returned by `triggerReward` (source lines 299-335): the
function catches every internal error, so it is total. -/
structure RewardResult where
  success : Bool
  ltzDistributed : JStr
  rewardAmount : JStr
  error : JStr
deriving DecidableEq

/-- Observable external effects of one handler run, in order. `send` records the
handler invoking `sendMessage` (itself best-effort and never throwing,
source lines 418-446); `resolveCall` records the handler invoking
`resolveEventId`; `configFetch` the resolver's remote listing query;
`rewardCall` the handler invoking `triggerReward` with a given event type. -/
inductive Eff where
  | kvGet (key : String)
  | kvPut (key : String) (value : JStr)
  | adminApi (chatId userId : Int)
  | resolveCall (name : String)
  | configFetch
  | rewardCall (eventType : String) (userId chatId : Int)
  | send (chatId : Int) (text : String)
deriving DecidableEq

/-- Per-run summary of how the outside world answers each external call.
`kvGetErr` / `kvPutErr` give `some e` when the store operation's promise
rejects with message `e` (these rejections are NOT caught in `handleMessage`). -/
structure Oracle where
  kvGetErr : String → Option String
  kvPutErr : String → Option String
  adminFetch : Int → Int → Except Unit AdminData
  configFetch : Except Unit ConfigResp
  trigger : String → Int → Int → RewardResult
  now : String

/-- The persistent key-value namespace, newest write first. -/
abbrev KVStore := List (String × String)

/-- Store read: first (most recent) binding wins. -/
def kvLookup (kv : KVStore) (k : String) : JStr :=
  match kv.find? (fun p => p.1 == k) with
  | some p => some p.2
  | none => none

/-- Store write. -/
def kvInsert (kv : KVStore) (k v : String) : KVStore := (k, v) :: kv

/-- The two per-chat configuration kinds. -/
inductive CfgKind where
  | checkin
  | join
deriving DecidableEq

/-- Composite store keys `CHECKIN_EVENT_ID:<chatId>` / `JOIN_EVENT_ID:<chatId>`
(source lines 109, 137, 191, 225). -/
def cfgKey : CfgKind → Int → String
  | .checkin, c => "CHECKIN_EVENT_ID:" ++ toString c
  | .join, c => "JOIN_EVENT_ID:" ++ toString c

/-- Outcome of one `handleMessage` run: `err = some e` means an uncaught
exception with message `e` escaped to the dispatcher. -/
structure HOut where
  err : Option String
  trace : List Eff
  kv : KVStore
deriving DecidableEq

/-- Message text constants, transcribed verbatim from the source. -/
def joinNotConfiguredMsg : String :=
  "⚠️ Join reward not configured. Admin: Use /config_join <event_id> to set up."

def checkinNotConfiguredMsg : String :=
  "⚠️ Daily check-in not configured. Admin: Use /config_checkin <event_id> to set up.\n\nCreate an event in Partner Portal with \"Telegram Bot Interaction\" detection, then use the generated event ID."

def cooldownMsg : String :=
  "⏳ You\x27ve already checked in today. Come back tomorrow!"

def notFoundMsg (cid : String) : String :=
  "❌ Event \"" ++ cid ++ "\" not found or inactive. Admin: Verify the event ID in Partner Portal."

def genericFailMsg (e : JStr) : String :=
  "❌ Check-in failed: " ++ jsStr (jsOr e (some "Unknown error"))

def balanceMsg : String :=
  "💰 View your LTZ balance and spend tokens here:\nhttps://perks.loyalteez.app"

def onlyAdminsMsg : String :=
  "❌ Only admins can configure the bot."

def kvNotConfiguredMsg : String :=
  "❌ KV Storage not configured. Cannot save settings."

def startMsg : String :=
  "👋 Welcome to the community loyalty bot!\n\nCommands:\n/checkin - Earn daily points\n/balance - Check your balance\n\nAdmins:\n/config_checkin <event_id> - Set daily event ID\n/config_join <event_id> - Set join event ID\n\n📖 Setup: Create events in Partner Portal with \"Telegram Bot Interaction\" detection, then configure the bot with the generated event IDs."

def welcomeSuccessMsg (m : User) (r : RewardResult) : String :=
  "Welcome " ++ jsStr m.first_name ++ "! You\x27ve earned " ++ jsStr (jsOr r.ltzDistributed (some "LTZ")) ++ " tokens for joining."

def welcomeProcessingMsg (m : User) : String :=
  "Welcome " ++ jsStr m.first_name ++ "! (Reward processing...)"

def checkinSuccessMsg (r : RewardResult) : String :=
  "✅ Daily check-in complete! " ++ jsStr (jsOr (jsOr r.ltzDistributed r.rewardAmount) (some "LTZ")) ++ " sent to your wallet."

def usageMsg : CfgKind → String
  | .checkin => "❌ Usage: /config_checkin <event_id_or_friendly_name>\n\nYou can use:\n- Custom event ID: <code>custom_4748e22F_1763993617509</code>\n- Friendly name: <code>daily_checkin</code>"
  | .join => "❌ Usage: /config_join <event_id_or_friendly_name>\n\nYou can use:\n- Custom event ID: <code>custom_4748e22F_1763993617509</code>\n- Friendly name: <code>telegram_join</code>"

def cfgMappedMsg (kind : CfgKind) (inputName : String) (resolved : JStr) : String :=
  (match kind with
    | .checkin => "✅ Daily check-in event configured!"
    | .join => "✅ Join event configured!") ++
  "\n\nFriendly name: <code>" ++ escapeHtml (some inputName) ++ "</code>\nMaps to: <code>" ++ escapeHtml resolved ++ "</code>"

def cfgUpdatedMsg (kind : CfgKind) (resolved : JStr) : String :=
  (match kind with
    | .checkin => "✅ Daily check-in event updated to: <code>"
    | .join => "✅ Join event updated to: <code>") ++ escapeHtml resolved ++ "</code>"

/-- `isAdmin` (source lines 250-269): missing bot token fails closed BEFORE the
private-chat bypass; positive chat ids bypass the membership query; otherwise the
membership-status API decides, with any transport/parse failure treated as false. -/
def isAdmin (env : Env) (oracle : Oracle) (chatId userId : Int) : Bool × List Eff :=
  if !(jsTruthy env.TELEGRAM_BOT_TOKEN) then (false, [])
  else if chatId > 0 then (true, [])
  else
    match oracle.adminFetch chatId userId with
    | .error _ => (false, [.adminApi chatId userId])
    | .ok data =>
      if data.ok then
        ((data.status == "creator" || data.status == "administrator"), [.adminApi chatId userId])
      else (false, [.adminApi chatId userId])

/-- Matching loop of `resolveEventId` (source lines 391-404): first entry whose
`eventNameMapping` or (back-compat) `eventType` strictly equals the input wins,
yielding `eventId || eventType`; otherwise fall through to the input itself. -/
def findEventMatch (friendlyName : String) : List EventConfig → JStr
  | [] => some friendlyName
  | c :: rest =>
    if c.eventNameMapping == some friendlyName then jsOr c.eventId c.eventType
    else if c.eventType == some friendlyName then jsOr c.eventId c.eventType
    else findEventMatch friendlyName rest

/-- `resolveEventId` (source lines 353-413): short-circuit on the `custom_`
prefix; no brand id means no query; failed fetch / non-ok status / unparsable
body all fall back to the input unchanged. Never throws. -/
def resolveEventId (env : Env) (oracle : Oracle) (friendlyName : String) : JStr × List Eff :=
  if jsStartsWith friendlyName "custom_" then (some friendlyName, [.resolveCall friendlyName])
  else if !(jsTruthy env.BRAND_ID) then (some friendlyName, [.resolveCall friendlyName])
  else
    match oracle.configFetch with
    | .error _ => (some friendlyName, [.resolveCall friendlyName, .configFetch])
    | .ok resp =>
      if !resp.ok then (some friendlyName, [.resolveCall friendlyName, .configFetch])
      else
        match resp.events with
        | .error _ => (some friendlyName, [.resolveCall friendlyName, .configFetch])
        | .ok configs => (findEventMatch friendlyName configs, [.resolveCall friendlyName, .configFetch])

/-- Per-member loop of the join branch (source lines 117-126): bots are skipped;
each non-bot member gets a reward trigger and a welcome message. -/
def joinLoop (oracle : Oracle) (chatId : Int) (jid : String) : List User → List Eff
  | [] => []
  | m :: rest =>
    if m.is_bot then joinLoop oracle chatId jid rest
    else
      let r := oracle.trigger jid m.id chatId
      let reply := if r.success then welcomeSuccessMsg m r else welcomeProcessingMsg m
      Eff.rewardCall jid m.id chatId :: Eff.send chatId reply :: joinLoop oracle chatId jid rest

/-- Join branch (source lines 105-128). A rejected store read propagates. -/
def handleJoin (env : Env) (oracle : Oracle) (chatId : Int) (members : List User) (kv : KVStore) : HOut :=
  if env.TELEGRAM_BOT_KV then
    let key := cfgKey .join chatId
    match oracle.kvGetErr key with
    | some e => ⟨some e, [.kvGet key], kv⟩
    | none =>
      let joinEventId := kvLookup kv key
      if jsTruthy joinEventId then
        ⟨none, Eff.kvGet key :: joinLoop oracle chatId (jsStr joinEventId) members, kv⟩
      else ⟨none, [.kvGet key, .send chatId joinNotConfiguredMsg], kv⟩
  else ⟨none, [.send chatId joinNotConfiguredMsg], kv⟩

/-- Check-in branch (source lines 133-160), including the error-substring
classification of a failed trigger (lines 147-158). -/
def handleCheckin (env : Env) (oracle : Oracle) (chatId : Int) (user : User) (kv : KVStore) : HOut :=
  if env.TELEGRAM_BOT_KV then
    let key := cfgKey .checkin chatId
    match oracle.kvGetErr key with
    | some e => ⟨some e, [.kvGet key], kv⟩
    | none =>
      let checkinEventId := kvLookup kv key
      if jsTruthy checkinEventId then
        let cid := jsStr checkinEventId
        let r := oracle.trigger cid user.id chatId
        let reply :=
          if r.success then checkinSuccessMsg r
          else if errIncludes r.error "cooldown" then cooldownMsg
          else if errIncludes r.error "not found" || errIncludes r.error "Invalid event" then notFoundMsg cid
          else genericFailMsg r.error
        ⟨none, [.kvGet key, .rewardCall cid user.id chatId, .send chatId reply], kv⟩
      else ⟨none, [.kvGet key, .send chatId checkinNotConfiguredMsg], kv⟩
  else ⟨none, [.send chatId checkinNotConfiguredMsg], kv⟩

/-- Admin config branch, common to `/config_checkin` (source lines 173-202) and
`/config_join` (lines 207-236), which are verbatim-symmetric up to the store key
and message texts. A rejected store write propagates; the platform store also
rejects a `put` whose value is `undefined`, which can only arise when a matched
listing entry has neither `eventId` nor `eventType`. -/
def handleConfigCmd (env : Env) (oracle : Oracle) (chatId : Int) (user : User) (text : String) (kind : CfgKind) (kv : KVStore) : HOut :=
  let adm := (isAdmin env oracle chatId user.id).1
  let t0 := (isAdmin env oracle chatId user.id).2
  if !adm then ⟨none, t0 ++ [.send chatId onlyAdminsMsg], kv⟩
  else
    let parts := jsSplitSpace text
    if parts.length < 2 then ⟨none, t0 ++ [.send chatId (usageMsg kind)], kv⟩
    else
      let inputName := parts.getD 1 ""
      let resolved := (resolveEventId env oracle inputName).1
      let t1 := (resolveEventId env oracle inputName).2
      if env.TELEGRAM_BOT_KV then
        let key := cfgKey kind chatId
        match oracle.kvPutErr key with
        | some e => ⟨some e, t0 ++ t1 ++ [.kvPut key resolved], kv⟩
        | none =>
          match resolved with
          | none => ⟨some "KV put() requires a valid value", t0 ++ t1 ++ [.kvPut key resolved], kv⟩
          | some v =>
            let reply :=
              if resolved != some inputName then cfgMappedMsg kind inputName resolved
              else cfgUpdatedMsg kind resolved
            ⟨none, t0 ++ t1 ++ [.kvPut key resolved, .send chatId reply], kvInsert kv key v⟩
      else ⟨none, t0 ++ t1 ++ [.send chatId kvNotConfiguredMsg], kv⟩

/-- `handleMessage` (source lines 94-245): bot senders are ignored outright; the
branches are tried first-match in source order. -/
def handleMessage (env : Env) (oracle : Oracle) (message : Message) (kv : KVStore) : HOut :=
  let chatId := message.chat.id
  let user := message.from_
  let text := message.text.getD ""
  if user.is_bot then ⟨none, [], kv⟩
  else
    match message.new_chat_members with
    | some members => handleJoin env oracle chatId members kv
    | none =>
      if jsStartsWith text "/checkin" then handleCheckin env oracle chatId user kv
      else if jsStartsWith text "/balance" || jsStartsWith text "/ltz" then ⟨none, [.send chatId balanceMsg], kv⟩
      else if jsStartsWith text "/config_checkin" then handleConfigCmd env oracle chatId user text .checkin kv
      else if jsStartsWith text "/config_join" then handleConfigCmd env oracle chatId user text .join kv
      else if jsStartsWith text "/start" then ⟨none, [.send chatId startMsg], kv⟩
      else ⟨none, [], kv⟩

/-- `handleUpdate` (source lines 84-92): only message updates are handled. -/
def handleUpdate (env : Env) (oracle : Oracle) (u : Update) (kv : KVStore) : HOut :=
  match u.message with
  | some m => handleMessage env oracle m kv
  | none => ⟨none, [], kv⟩

/-- Health-check body (source lines 38-54). -/
def healthBody (env : Env) (now : String) : String :=
  "\x7b\"status\":\"healthy\",\"service\":\"telegram-loyalty-bot\",\"timestamp\":\"" ++ now ++
  "\",\"config\":\x7b\"brandId\":\"" ++ (if jsTruthy env.BRAND_ID then "configured" else "missing") ++
  "\",\"apiUrl\":\"" ++ jsStr (jsOr env.LOYALTEEZ_API_URL (some "https://api.loyalteez.app")) ++
  "\",\"kvConfigured\":" ++ (if env.TELEGRAM_BOT_KV then "true" else "false") ++
  ",\"tokenConfigured\":" ++ (if jsTruthy env.TELEGRAM_BOT_TOKEN then "true" else "false") ++ "\x7d\x7d"

/-- Body of the 500 response (source lines 76-79); JSON escaping of the embedded
message is elided here, no claim inspects it. -/
def internalErrBody (e : String) : String :=
  "\x7b\"error\":\"Internal server error\",\"message\":\"" ++ e ++ "\"\x7d"

/-- An inbound HTTP request as the dispatcher sees it. `secret` is
`url.searchParams.get("secret")` (`none` = absent); `body` is the outcome of
`request.json()` together with shape extraction — `Except.error e` is a parse
rejection with message `e`. -/
structure HttpRequest where
  method : String
  path : String
  secret : JStr
  body : Except String Update
deriving DecidableEq

/-- Full dispatcher result: status, body, effect trace and final store state. -/
structure WResult where
  status : Nat
  body : String
  trace : List Eff
  kv : KVStore
deriving DecidableEq

/-- The worker `fetch` entry point (source lines 27-82): OPTIONS preflight,
GET `/health`, 405 on any other non-POST, 401 on a configured-but-mismatched
secret, then the try/catch around body parsing and `handleUpdate` — a parse
failure OR an exception escaping the handler yields 500, success yields 200
with body `"OK"`. -/
def workerFetch (env : Env) (oracle : Oracle) (req : HttpRequest) (kv : KVStore) : WResult :=
  if req.method == "OPTIONS" then ⟨200, "", [], kv⟩
  else if req.method == "GET" && req.path == "/health" then ⟨200, healthBody env oracle.now, [], kv⟩
  else if req.method != "POST" then ⟨405, "Method not allowed", [], kv⟩
  else if jsTruthy env.WEBHOOK_SECRET && req.secret != env.WEBHOOK_SECRET then ⟨401, "Unauthorized", [], kv⟩
  else
    match req.body with
    | .error e => ⟨500, internalErrBody e, [], kv⟩
    | .ok update =>
      let out := handleUpdate env oracle update kv
      match out.err with
      | some e => ⟨500, internalErrBody e, out.trace, out.kv⟩
      | none => ⟨200, "OK", out.trace, out.kv⟩

/-- A benign oracle for concrete runs: store operations succeed, the membership
and listing queries fail at transport level (degraded paths), triggers succeed. -/
def oracle0 : Oracle where
  kvGetErr := fun _ => none
  kvPutErr := fun _ => none
  adminFetch := fun _ _ => .error ()
  configFetch := .error ()
  trigger := fun _ _ _ => ⟨true, none, none, none⟩
  now := "2026-01-01T00:00:00.000Z"

/-- A benign environment for concrete runs: no webhook secret, a configured bot
token, no brand id, default API URL, key-value binding present. -/
def env0 : Env := ⟨none, some "t", none, none, true⟩

/-! Helper lemmas about the traces of the individual components. -/

theorem kvPut_not_mem_isAdmin (env : Env) (oracle : Oracle) (c u : Int) (k : String) (v : JStr) :
    Eff.kvPut k v ∉ (isAdmin env oracle c u).2 := by
  unfold isAdmin
  split
  · simp
  · split
    · simp
    · split
      · simp
      · split <;> simp

theorem resolve_snd_cases (env : Env) (oracle : Oracle) (n : String) :
    (resolveEventId env oracle n).2 = [.resolveCall n] ∨
    (resolveEventId env oracle n).2 = [.resolveCall n, .configFetch] := by
  unfold resolveEventId
  split
  · exact Or.inl rfl
  · split
    · exact Or.inl rfl
    · split
      · exact Or.inr rfl
      · split
        · exact Or.inr rfl
        · split
          · exact Or.inr rfl
          · exact Or.inr rfl

theorem kvPut_not_mem_resolve (env : Env) (oracle : Oracle) (n k : String) (v : JStr) :
    Eff.kvPut k v ∉ (resolveEventId env oracle n).2 := by
  rcases resolve_snd_cases env oracle n with h | h <;> simp [h]

theorem resolveCall_mem_resolve (env : Env) (oracle : Oracle) (n : String) :
    Eff.resolveCall n ∈ (resolveEventId env oracle n).2 := by
  rcases resolve_snd_cases env oracle n with h | h <;> simp [h]

theorem kvPut_not_mem_joinLoop (oracle : Oracle) (c : Int) (j k : String) (v : JStr) :
    ∀ ms : List User, Eff.kvPut k v ∉ joinLoop oracle c j ms := by
  intro ms
  induction ms with
  | nil => simp [joinLoop]
  | cons m rest ih =>
    by_cases hb : m.is_bot <;> simp [joinLoop, hb, ih]

theorem kvPut_not_mem_handleJoin (env : Env) (oracle : Oracle) (c : Int)
    (ms : List User) (kv : KVStore) (k : String) (v : JStr) :
    Eff.kvPut k v ∉ (handleJoin env oracle c ms kv).trace := by
  simp only [handleJoin]
  split
  · split
    · simp
    · split <;> simp [kvPut_not_mem_joinLoop]
  · simp

theorem kvPut_not_mem_handleCheckin (env : Env) (oracle : Oracle) (c : Int)
    (u : User) (kv : KVStore) (k : String) (v : JStr) :
    Eff.kvPut k v ∉ (handleCheckin env oracle c u kv).trace := by
  simp only [handleCheckin]
  split
  · split
    · simp
    · split <;> simp
  · simp

/-! Claim C1 -/

/-- C1 (counterexample): with no bot token configured, `isAdmin` returns `false`
even for a positive (private) chat id, because the token check at source line
252 precedes the private-chat bypass at line 255 — refuting "regardless of any
other configuration". -/
theorem C1_counterexample :
    (isAdmin ⟨none, none, none, none, false⟩ oracle0 1 1).1 = false := by decide

/-- C1 (amended): provided the bot token is configured, every `isAdmin` call
with a positive chat id returns `true`, for every user id and every behavior of
the membership-status API, and without issuing any external call. -/
theorem C1_private_chat_is_admin (env : Env) (oracle : Oracle) (chatId userId : Int)
    (htok : jsTruthy env.TELEGRAM_BOT_TOKEN = true) (hpos : 0 < chatId) :
    isAdmin env oracle chatId userId = (true, []) := by
  unfold isAdmin
  simp [htok, hpos]

theorem C1_private_chat_is_admin_witness :
    jsTruthy (env0).TELEGRAM_BOT_TOKEN = true ∧ (0 : Int) < 5 ∧
    isAdmin env0 oracle0 5 77 = (true, []) :=
  ⟨by decide, by decide, C1_private_chat_is_admin env0 oracle0 5 77 (by decide) (by decide)⟩

/-! Claim C6 -/

theorem findEventMatch_no_match (name : String) (configs : List EventConfig)
    (h : ∀ c ∈ configs, c.eventNameMapping ≠ some name ∧ c.eventType ≠ some name) :
    findEventMatch name configs = some name := by
  induction configs with
  | nil => rfl
  | cons c rest ih =>
    have hc := h c (by simp)
    have hrest : ∀ x ∈ rest, x.eventNameMapping ≠ some name ∧ x.eventType ≠ some name :=
      fun x hx => h x (by simp [hx])
    simp [findEventMatch, hc.1, hc.2, ih hrest]

/-- C6 (confirmed): the resolver is total by construction and never throws; a
`custom_`-prefixed input is returned unchanged with no network call, and every
failure mode of the remote listing query (no brand id, transport error, non-ok
status, unparsable body) as well as a listing with no matching entry all return
the original input unchanged. -/
theorem C6_resolver_fallbacks (env : Env) (oracle : Oracle) (name : String) :
    (jsStartsWith name "custom_" = true →
      resolveEventId env oracle name = (some name, [.resolveCall name])) ∧
    (jsTruthy env.BRAND_ID = false → (resolveEventId env oracle name).1 = some name) ∧
    (oracle.configFetch = .error () → (resolveEventId env oracle name).1 = some name) ∧
    (∀ resp, oracle.configFetch = .ok resp → resp.ok = false →
      (resolveEventId env oracle name).1 = some name) ∧
    (∀ resp, oracle.configFetch = .ok resp → resp.events = .error () →
      (resolveEventId env oracle name).1 = some name) ∧
    (∀ resp configs, oracle.configFetch = .ok resp → resp.events = .ok configs →
      (∀ c ∈ configs, c.eventNameMapping ≠ some name ∧ c.eventType ≠ some name) →
      (resolveEventId env oracle name).1 = some name) := by
  refine ⟨?_, ?_, ?_, ?_, ?_, ?_⟩
  · intro h
    unfold resolveEventId
    simp [h]
  · intro h
    unfold resolveEventId
    split
    · rfl
    · simp [h]
  · intro h
    unfold resolveEventId
    split
    · rfl
    · split
      · rfl
      · simp [h]
  · intro resp hF hok
    unfold resolveEventId
    split
    · rfl
    · split
      · rfl
      · simp [hF, hok]
  · intro resp hF hev
    unfold resolveEventId
    split
    · rfl
    · split
      · rfl
      · simp only [hF]
        split
        · rfl
        · simp [hev]
  · intro resp configs hF hev hno
    unfold resolveEventId
    split
    · rfl
    · split
      · rfl
      · simp only [hF]
        split
        · rfl
        · simp [hev, findEventMatch_no_match name configs hno]

theorem C6_resolver_fallbacks_witness :
    jsStartsWith "custom_abc123" "custom_" = true ∧
    resolveEventId env0 oracle0 "custom_abc123" = (some "custom_abc123", [.resolveCall "custom_abc123"]) :=
  ⟨by decide, (C6_resolver_fallbacks env0 oracle0 "custom_abc123").1 (by decide)⟩

/-! Claim C7 -/

/-- C7 (confirmed): a POST with a configured webhook secret and a differing (or
absent) `secret` query parameter is answered 401 "Unauthorized" with an empty
effect trace — no outbound call, no store access, store unchanged — and the
response is the same whatever the request body holds, so the body is never
examined. -/
theorem C7_unauthorized (env : Env) (oracle : Oracle) (req : HttpRequest) (kv : KVStore)
    (hm : req.method = "POST")
    (hs : jsTruthy env.WEBHOOK_SECRET = true)
    (hne : req.secret ≠ env.WEBHOOK_SECRET) :
    workerFetch env oracle req kv = ⟨401, "Unauthorized", [], kv⟩ ∧
    (∀ b, workerFetch env oracle ⟨req.method, req.path, req.secret, b⟩ kv =
      ⟨401, "Unauthorized", [], kv⟩) := by
  constructor
  · unfold workerFetch
    simp [hm, hs, hne]
  · intro b
    unfold workerFetch
    simp [hm, hs, hne]

theorem C7_unauthorized_witness :
    workerFetch ⟨some "s3cret", some "t", none, none, true⟩ oracle0
      ⟨"POST", "/", some "wrong", .ok ⟨none⟩⟩ [] = ⟨401, "Unauthorized", [], []⟩ :=
  (C7_unauthorized ⟨some "s3cret", some "t", none, none, true⟩ oracle0
    ⟨"POST", "/", some "wrong", .ok ⟨none⟩⟩ [] rfl (by decide) (by decide)).1

/-! Claim C8 -/

/-- C8 (confirmed): every dispatcher response status is one of 200, 401, 405,
500; and any request whose method is not POST, not OPTIONS, and not the
GET `/health` special case is answered 405. -/
theorem C8_status_codes (env : Env) (oracle : Oracle) (req : HttpRequest) (kv : KVStore) :
    ((workerFetch env oracle req kv).status = 200 ∨ (workerFetch env oracle req kv).status = 401 ∨
     (workerFetch env oracle req kv).status = 405 ∨ (workerFetch env oracle req kv).status = 500) ∧
    (req.method ≠ "OPTIONS" → req.method ≠ "POST" →
      ¬(req.method = "GET" ∧ req.path = "/health") →
      (workerFetch env oracle req kv).status = 405) := by
  constructor
  · unfold workerFetch
    split
    · simp
    · split
      · simp
      · split
        · simp
        · split
          · simp
          · cases hb : req.body with
            | error e => simp
            | ok u =>
              simp only []
              cases he : (handleUpdate env oracle u kv).err <;> simp
  · intro h1 h2 h3
    unfold workerFetch
    simp only [beq_iff_eq, bne_iff_ne, ne_eq]
    rw [if_neg h1, if_neg (by simpa using h3), if_pos (by simpa using h2)]

theorem C8_status_codes_witness :
    ("PUT" ≠ "OPTIONS") ∧ ("PUT" ≠ "POST") ∧
    (workerFetch env0 oracle0 ⟨"PUT", "/", none, .ok ⟨none⟩⟩ []).status = 405 :=
  ⟨by decide, by decide,
    (C8_status_codes env0 oracle0 ⟨"PUT", "/", none, .ok ⟨none⟩⟩ []).2
      (by decide) (by decide) (by decide)⟩

/-! Claim C2 -/

/-- Message used by the C2 counterexample: an admin `/config_checkin` whose
command text contains a doubled space, so the second space-split field is empty. -/
def msgC2 : Message := ⟨⟨1⟩, ⟨7, false, none, none, none⟩, some "/config_checkin  real_name", none⟩

/-- C2 (counterexample): on the text "/config_checkin  real_name" (two spaces),
`text.split(" ")[1]` is the empty string; the handler resolves it (unchanged)
and writes it, so the Chat Configuration store receives an empty string —
refuting the "never an empty string" part of the claim. -/
theorem C2_counterexample :
    Eff.kvPut "CHECKIN_EVENT_ID:1" (some "") ∈ (handleMessage env0 oracle0 msgC2 []).trace ∧
    (handleMessage env0 oracle0 msgC2 []).kv = [("CHECKIN_EVENT_ID:1", "")] := by
  constructor
  · decide
  · decide

theorem configCmd_put_value (env : Env) (oracle : Oracle) (chatId : Int) (user : User)
    (text : String) (kind : CfgKind) (kv : KVStore) (key : String) (v : JStr)
    (h : Eff.kvPut key v ∈ (handleConfigCmd env oracle chatId user text kind kv).trace) :
    v = (resolveEventId env oracle ((jsSplitSpace text).getD 1 "")).1 := by
  simp only [handleConfigCmd] at h
  split at h
  · simp at h
    exact absurd h (kvPut_not_mem_isAdmin env oracle chatId user.id key v)
  · split at h
    · simp at h
      exact absurd h (kvPut_not_mem_isAdmin env oracle chatId user.id key v)
    · split at h
      · split at h
        · simp at h
          rcases h with h | h | h
          · exact absurd h (kvPut_not_mem_isAdmin env oracle chatId user.id key v)
          · exact absurd h (kvPut_not_mem_resolve env oracle _ key v)
          · simpa using h.2
        · split at h
          · simp at h
            rcases h with h | h | h
            · exact absurd h (kvPut_not_mem_isAdmin env oracle chatId user.id key v)
            · exact absurd h (kvPut_not_mem_resolve env oracle _ key v)
            · simpa using h.2
          · simp at h
            rcases h with h | h | h
            · exact absurd h (kvPut_not_mem_isAdmin env oracle chatId user.id key v)
            · exact absurd h (kvPut_not_mem_resolve env oracle _ key v)
            · simpa using h.2
      · simp at h
        rcases h with h | h
        · exact absurd h (kvPut_not_mem_isAdmin env oracle chatId user.id key v)
        · exact absurd h (kvPut_not_mem_resolve env oracle _ key v)

/-- C2 (amended): every Chat Configuration write performed by the message
handler stores exactly the resolver's result for the second space-split field
of the message text — the resolver returns that field verbatim whenever it
cannot resolve it — hence never a partially-resolved string; the stored value
can however be the empty string, exactly when that second field is empty. -/
theorem C2_config_write_is_resolved (env : Env) (oracle : Oracle) (message : Message)
    (kv : KVStore) (key : String) (v : JStr)
    (h : Eff.kvPut key v ∈ (handleMessage env oracle message kv).trace) :
    v = (resolveEventId env oracle ((jsSplitSpace (message.text.getD "")).getD 1 "")).1 := by
  simp only [handleMessage] at h
  split at h
  · simp at h
  · split at h
    · exact absurd h (kvPut_not_mem_handleJoin env oracle message.chat.id _ kv key v)
    · split at h
      · exact absurd h (kvPut_not_mem_handleCheckin env oracle message.chat.id message.from_ kv key v)
      · split at h
        · simp at h
        · split at h
          · exact configCmd_put_value env oracle message.chat.id message.from_ _ .checkin kv key v h
          · split at h
            · exact configCmd_put_value env oracle message.chat.id message.from_ _ .join kv key v h
            · split at h
              · simp at h
              · simp at h

/-- Message used by the C2 witness: a well-formed admin `/config_join`. -/
def msgW2 : Message := ⟨⟨1⟩, ⟨7, false, none, none, none⟩, some "/config_join telegram_join", none⟩

theorem C2_config_write_is_resolved_witness :
    Eff.kvPut "JOIN_EVENT_ID:1" (some "telegram_join") ∈ (handleMessage env0 oracle0 msgW2 []).trace ∧
    some "telegram_join" =
      (resolveEventId env0 oracle0 ((jsSplitSpace ((msgW2.text).getD "")).getD 1 "")).1 :=
  ⟨by decide, C2_config_write_is_resolved env0 oracle0 msgW2 [] "JOIN_EVENT_ID:1"
    (some "telegram_join") (by decide)⟩

/-! Claim C3 -/

/-- Oracle for the C3 counterexample: the config-store read for chat 1's
check-in key rejects, everything else is benign. -/
def oracleC3 : Oracle :=
  { oracle0 with kvGetErr := fun k => if k == "CHECKIN_EVENT_ID:1" then some "KV internal error" else none }

/-- Request for the C3 counterexample: a POST with no secret configured and a
body that parses to a `/checkin` message. -/
def reqC3 : HttpRequest :=
  ⟨"POST", "/", none, .ok ⟨some ⟨⟨1⟩, ⟨2, false, none, some "Tester", none⟩, some "/checkin", none⟩⟩⟩

/-- C3 (counterexample): a POST that passes the secret check and whose body
parses as JSON is answered 500, not 200, when the downstream handler throws —
here the uncaught rejection of the config-store read in the check-in branch —
so downstream errors are not universally swallowed into chat messages. -/
theorem C3_counterexample :
    (workerFetch env0 oracleC3 reqC3 []).status = 500 := by decide

/-- C3 (amended): for every POST that passes the secret check and whose body
parses as JSON, the dispatcher returns 200 with body "OK" whenever the
downstream handler completes without throwing (its internal network errors are
swallowed into chat messages); when an exception escapes the handler — in this
code only an uncaught config-store rejection — the shared catch block returns
500 instead. -/
theorem C3_ack_tracks_handler (env : Env) (oracle : Oracle) (req : HttpRequest)
    (kv : KVStore) (update : Update)
    (hm : req.method = "POST")
    (hs : jsTruthy env.WEBHOOK_SECRET = true → req.secret = env.WEBHOOK_SECRET)
    (hb : req.body = .ok update) :
    ((handleUpdate env oracle update kv).err = none →
      workerFetch env oracle req kv =
        ⟨200, "OK", (handleUpdate env oracle update kv).trace, (handleUpdate env oracle update kv).kv⟩) ∧
    (∀ e, (handleUpdate env oracle update kv).err = some e →
      (workerFetch env oracle req kv).status = 500) := by
  have hsec : (jsTruthy env.WEBHOOK_SECRET && req.secret != env.WEBHOOK_SECRET) = false := by
    cases hw : jsTruthy env.WEBHOOK_SECRET with
    | false => simp
    | true => simp [hs hw]
  constructor
  · intro hclean
    unfold workerFetch
    simp [hm, hsec, hb, hclean]
  · intro e herr
    unfold workerFetch
    simp [hm, hsec, hb, herr]

theorem C3_ack_tracks_handler_witness :
    (handleUpdate env0 oracle0 ⟨none⟩ []).err = none ∧
    workerFetch env0 oracle0 ⟨"POST", "/", none, .ok ⟨none⟩⟩ [] =
      ⟨200, "OK", (handleUpdate env0 oracle0 ⟨none⟩ []).trace, (handleUpdate env0 oracle0 ⟨none⟩ []).kv⟩ :=
  ⟨by decide,
    (C3_ack_tracks_handler env0 oracle0 ⟨"POST", "/", none, .ok ⟨none⟩⟩ [] ⟨none⟩
      rfl (by decide) rfl).1 (by decide)⟩

/-! Claim C9 -/

/-- Message used by the C9 counterexample: a bot sender announcing a non-bot
new member. -/
def msgC9 : Message :=
  ⟨⟨-50⟩, ⟨9, true, none, none, none⟩, none, some [⟨10, false, none, some "Ana", none⟩]⟩

/-- C9 (counterexample): a message update carrying `new_chat_members` whose
SENDER is a bot is dropped by the bot-sender guard (source line 100) before the
join branch: no message at all is sent, refuting "sends exactly one
Join-reward-not-configured message" for every such update. -/
theorem C9_counterexample :
    (handleMessage env0 oracle0 msgC9 []).trace = [] := by decide

/-- C9 (amended): for every message update from a NON-BOT sender carrying a
`new_chat_members` field — including an empty list or a list naming only bots —
in a chat with no stored join identifier, the handler takes the join branch
only: it reads the join key, sends exactly one "Join reward not configured"
message, performs no reward trigger and no store write, leaves the store
unchanged, and ignores any command text in the same message. -/
theorem C9_join_not_configured (env : Env) (oracle : Oracle) (message : Message)
    (kv : KVStore) (members : List User)
    (hbot : message.from_.is_bot = false)
    (hnew : message.new_chat_members = some members)
    (hkv : env.TELEGRAM_BOT_KV = true)
    (hget : oracle.kvGetErr (cfgKey .join message.chat.id) = none)
    (hstore : jsTruthy (kvLookup kv (cfgKey .join message.chat.id)) = false) :
    handleMessage env oracle message kv =
      ⟨none, [.kvGet (cfgKey .join message.chat.id), .send message.chat.id joinNotConfiguredMsg], kv⟩ := by
  simp only [handleMessage, hbot, hnew]
  simp only [handleJoin, hkv, hget]
  simp [hstore]

/-- Message used by the C9 witness: a non-bot sender, an EMPTY
`new_chat_members` array, and command text `/checkin` in the same message —
the join branch still wins and the text is ignored. -/
def msgW9 : Message := ⟨⟨-60⟩, ⟨11, false, none, none, none⟩, some "/checkin", some []⟩

theorem C9_join_not_configured_witness :
    handleMessage env0 oracle0 msgW9 [] =
      ⟨none, [.kvGet (cfgKey .join (-60)), .send (-60) joinNotConfiguredMsg], []⟩ :=
  C9_join_not_configured env0 oracle0 msgW9 [] [] (by decide) rfl rfl rfl (by decide)

/-! Claim C10 -/

/-- C10 (confirmed): with the key-value binding absent, a join event and a
`/checkin` behave exactly as when no identifier is configured (one
"not configured" message, no reward trigger, no store access), and an
authorized `/config_checkin` or `/config_join` with an argument still invokes
the resolver but persists nothing, answering "KV Storage not configured". -/
theorem C10_kv_binding_absent (env : Env) (oracle : Oracle)
    (hkv : env.TELEGRAM_BOT_KV = false) :
    (∀ (message : Message) (kv : KVStore) (members : List User),
      message.from_.is_bot = false →
      message.new_chat_members = some members →
      handleMessage env oracle message kv = ⟨none, [.send message.chat.id joinNotConfiguredMsg], kv⟩) ∧
    (∀ (message : Message) (kv : KVStore),
      message.from_.is_bot = false →
      message.new_chat_members = none →
      jsStartsWith (message.text.getD "") "/checkin" = true →
      handleMessage env oracle message kv = ⟨none, [.send message.chat.id checkinNotConfiguredMsg], kv⟩) ∧
    (∀ (message : Message) (kv : KVStore) (t0 : List Eff),
      message.from_.is_bot = false →
      message.new_chat_members = none →
      jsStartsWith (message.text.getD "") "/checkin" = false →
      jsStartsWith (message.text.getD "") "/balance" = false →
      jsStartsWith (message.text.getD "") "/ltz" = false →
      jsStartsWith (message.text.getD "") "/config_checkin" = true →
      isAdmin env oracle message.chat.id message.from_.id = (true, t0) →
      2 ≤ (jsSplitSpace (message.text.getD "")).length →
      handleMessage env oracle message kv =
        ⟨none, t0 ++ (resolveEventId env oracle ((jsSplitSpace (message.text.getD "")).getD 1 "")).2
              ++ [.send message.chat.id kvNotConfiguredMsg], kv⟩ ∧
      Eff.resolveCall ((jsSplitSpace (message.text.getD "")).getD 1 "") ∈
        (resolveEventId env oracle ((jsSplitSpace (message.text.getD "")).getD 1 "")).2) ∧
    (∀ (message : Message) (kv : KVStore) (t0 : List Eff),
      message.from_.is_bot = false →
      message.new_chat_members = none →
      jsStartsWith (message.text.getD "") "/checkin" = false →
      jsStartsWith (message.text.getD "") "/balance" = false →
      jsStartsWith (message.text.getD "") "/ltz" = false →
      jsStartsWith (message.text.getD "") "/config_checkin" = false →
      jsStartsWith (message.text.getD "") "/config_join" = true →
      isAdmin env oracle message.chat.id message.from_.id = (true, t0) →
      2 ≤ (jsSplitSpace (message.text.getD "")).length →
      handleMessage env oracle message kv =
        ⟨none, t0 ++ (resolveEventId env oracle ((jsSplitSpace (message.text.getD "")).getD 1 "")).2
              ++ [.send message.chat.id kvNotConfiguredMsg], kv⟩ ∧
      Eff.resolveCall ((jsSplitSpace (message.text.getD "")).getD 1 "") ∈
        (resolveEventId env oracle ((jsSplitSpace (message.text.getD "")).getD 1 "")).2) := by
  refine ⟨?_, ?_, ?_, ?_⟩
  · intro message kv members hbot hnew
    simp only [handleMessage, hbot, hnew]
    simp [handleJoin, hkv]
  · intro message kv hbot hnew htext
    simp only [handleMessage, hbot, hnew, htext]
    simp [handleCheckin, hkv]
  · intro message kv t0 hbot hnew h1 h2 h3 h4 hadm hlen
    simp only [handleMessage, hbot, hnew, h1, h2, h3, h4]
    simp only [handleConfigCmd, hadm, hkv]
    constructor
    · simp [Nat.not_lt.mpr hlen]
    · exact resolveCall_mem_resolve env oracle _
  · intro message kv t0 hbot hnew h1 h2 h3 h4 h5 hadm hlen
    simp only [handleMessage, hbot, hnew, h1, h2, h3, h4, h5]
    simp only [handleConfigCmd, hadm, hkv]
    constructor
    · simp [Nat.not_lt.mpr hlen]
    · exact resolveCall_mem_resolve env oracle _

/-- Environment with the key-value binding absent, for the C10 witness. -/
def envNoKV : Env := ⟨none, some "t", none, none, false⟩

theorem C10_kv_binding_absent_witness :
    handleMessage envNoKV oracle0 ⟨⟨4⟩, ⟨5, false, none, none, none⟩, some "/checkin", none⟩ [] =
      ⟨none, [.send 4 checkinNotConfiguredMsg], []⟩ :=
  (C10_kv_binding_absent envNoKV oracle0 rfl).2.1
    ⟨⟨4⟩, ⟨5, false, none, none, none⟩, some "/checkin", none⟩ [] (by decide) rfl (by decide)

/-! Claim C4 -/

/-- C4 (confirmed): after an authorized, well-formed `/config_checkin X` in a
chat stores the identifier `r` resolved from `X` at configuration time, a later
`/checkin` from any non-bot user in that chat reads exactly `r` back from the
store and triggers the reward with exactly `r`; the resolver is never invoked
during the `/checkin` (no `resolveCall`, hence no listing query, appears in its
trace). -/
theorem C4_roundtrip (env : Env) (oracle : Oracle) (chatId : Int)
    (adminUser user2 : User) (text1 text2 X r : String) (kv : KVStore) (t0 : List Eff)
    (hbot1 : adminUser.is_bot = false) (hbot2 : user2.is_bot = false)
    (hkv : env.TELEGRAM_BOT_KV = true)
    (hadm : isAdmin env oracle chatId adminUser.id = (true, t0))
    (h1a : jsStartsWith text1 "/checkin" = false)
    (h1b : jsStartsWith text1 "/balance" = false)
    (h1c : jsStartsWith text1 "/ltz" = false)
    (h1d : jsStartsWith text1 "/config_checkin" = true)
    (hsplit : jsSplitSpace text1 = ["/config_checkin", X])
    (hres : (resolveEventId env oracle X).1 = some r)
    (hr : r ≠ "")
    (hput : oracle.kvPutErr (cfgKey .checkin chatId) = none)
    (hget : oracle.kvGetErr (cfgKey .checkin chatId) = none)
    (h2a : jsStartsWith text2 "/checkin" = true) :
    (handleMessage env oracle ⟨⟨chatId⟩, adminUser, some text1, none⟩ kv).kv =
      kvInsert kv (cfgKey .checkin chatId) r ∧
    (∃ reply,
      handleMessage env oracle ⟨⟨chatId⟩, user2, some text2, none⟩
          (kvInsert kv (cfgKey .checkin chatId) r) =
        ⟨none, [.kvGet (cfgKey .checkin chatId), .rewardCall r user2.id chatId,
                .send chatId reply],
          kvInsert kv (cfgKey .checkin chatId) r⟩) ∧
    (∀ n, Eff.resolveCall n ∉
      (handleMessage env oracle ⟨⟨chatId⟩, user2, some text2, none⟩
        (kvInsert kv (cfgKey .checkin chatId) r)).trace) := by
  have hlook : kvLookup (kvInsert kv (cfgKey .checkin chatId) r) (cfgKey .checkin chatId) = some r := by
    simp [kvLookup, kvInsert]
  have h2 : handleMessage env oracle ⟨⟨chatId⟩, user2, some text2, none⟩
      (kvInsert kv (cfgKey .checkin chatId) r) =
      ⟨none, [.kvGet (cfgKey .checkin chatId), .rewardCall r user2.id chatId,
              .send chatId
        (if (oracle.trigger r user2.id chatId).success then
          checkinSuccessMsg (oracle.trigger r user2.id chatId)
         else if errIncludes (oracle.trigger r user2.id chatId).error "cooldown" then cooldownMsg
         else if errIncludes (oracle.trigger r user2.id chatId).error "not found" ||
                 errIncludes (oracle.trigger r user2.id chatId).error "Invalid event" then notFoundMsg r
         else genericFailMsg (oracle.trigger r user2.id chatId).error)],
        kvInsert kv (cfgKey .checkin chatId) r⟩ := by
    simp only [handleMessage, handleCheckin]
    simp [hbot2, h2a, hkv, hget, hlook, jsTruthy, jsStr, hr]
  refine ⟨?_, ⟨_, h2⟩, ?_⟩
  · simp only [handleMessage, handleConfigCmd]
    simp [hbot1, h1a, h1b, h1c, h1d, hadm, hsplit, hkv, hput, hres]
  · intro n
    rw [h2]
    simp

/-- C4 witness messages. -/
def msgW4a : Message := ⟨⟨9⟩, ⟨7, false, none, none, none⟩, some "/config_checkin custom_abc", none⟩

def msgW4b : Message := ⟨⟨9⟩, ⟨8, false, none, none, none⟩, some "/checkin", none⟩

theorem C4_roundtrip_witness :
    (handleMessage env0 oracle0 msgW4a []).kv = kvInsert [] (cfgKey .checkin 9) "custom_abc" ∧
    (∃ reply, handleMessage env0 oracle0 msgW4b (kvInsert [] (cfgKey .checkin 9) "custom_abc") =
      ⟨none, [.kvGet (cfgKey .checkin 9), .rewardCall "custom_abc" 8 9, .send 9 reply],
        kvInsert [] (cfgKey .checkin 9) "custom_abc"⟩) :=
  ⟨(C4_roundtrip env0 oracle0 9 ⟨7, false, none, none, none⟩ ⟨8, false, none, none, none⟩
      "/config_checkin custom_abc" "/checkin" "custom_abc" "custom_abc" [] []
      rfl rfl rfl (by decide) (by decide) (by decide) (by decide) (by decide) (by decide)
      (by decide) (by decide) rfl rfl (by decide)).1,
   (C4_roundtrip env0 oracle0 9 ⟨7, false, none, none, none⟩ ⟨8, false, none, none, none⟩
      "/config_checkin custom_abc" "/checkin" "custom_abc" "custom_abc" [] []
      rfl rfl rfl (by decide) (by decide) (by decide) (by decide) (by decide) (by decide)
      (by decide) (by decide) rfl rfl (by decide)).2.1⟩

/-! Claim C5 -/

/-- C5 (confirmed): for a `/checkin` whose reward trigger returns a failure
result, the reply is classified by error substring in source order — an error
containing "cooldown" gets the cooldown message; otherwise one containing
"not found" or "Invalid event" gets the event-misconfigured message; any other
failure gets the generic message embedding the raw error text (or "Unknown
error" when the error field is absent) — and these are the only special cases. -/
theorem C5_checkin_error_branches (env : Env) (oracle : Oracle) (message : Message)
    (kv : KVStore) (cid : String) (r : RewardResult)
    (hbot : message.from_.is_bot = false)
    (hnew : message.new_chat_members = none)
    (htext : jsStartsWith (message.text.getD "") "/checkin" = true)
    (hkv : env.TELEGRAM_BOT_KV = true)
    (hget : oracle.kvGetErr (cfgKey .checkin message.chat.id) = none)
    (hstore : kvLookup kv (cfgKey .checkin message.chat.id) = some cid)
    (hne : cid ≠ "")
    (htrig : oracle.trigger cid message.from_.id message.chat.id = r)
    (hfail : r.success = false) :
    (errIncludes r.error "cooldown" = true →
      handleMessage env oracle message kv =
        ⟨none, [.kvGet (cfgKey .checkin message.chat.id),
                .rewardCall cid message.from_.id message.chat.id,
                .send message.chat.id cooldownMsg], kv⟩) ∧
    (errIncludes r.error "cooldown" = false →
      (errIncludes r.error "not found" = true ∨ errIncludes r.error "Invalid event" = true) →
      handleMessage env oracle message kv =
        ⟨none, [.kvGet (cfgKey .checkin message.chat.id),
                .rewardCall cid message.from_.id message.chat.id,
                .send message.chat.id (notFoundMsg cid)], kv⟩) ∧
    (errIncludes r.error "cooldown" = false →
      errIncludes r.error "not found" = false →
      errIncludes r.error "Invalid event" = false →
      handleMessage env oracle message kv =
        ⟨none, [.kvGet (cfgKey .checkin message.chat.id),
                .rewardCall cid message.from_.id message.chat.id,
                .send message.chat.id (genericFailMsg r.error)], kv⟩) := by
  have hmain : handleMessage env oracle message kv =
      ⟨none, [.kvGet (cfgKey .checkin message.chat.id),
              .rewardCall cid message.from_.id message.chat.id,
              .send message.chat.id
        (if r.success then checkinSuccessMsg r
         else if errIncludes r.error "cooldown" then cooldownMsg
         else if errIncludes r.error "not found" || errIncludes r.error "Invalid event" then
           notFoundMsg cid
         else genericFailMsg r.error)], kv⟩ := by
    simp only [handleMessage, hbot, hnew, htext]
    simp only [handleCheckin, hkv, hget, hstore]
    simp [jsTruthy, jsStr, hne, htrig]
  refine ⟨?_, ?_, ?_⟩
  · intro hcool
    rw [hmain]
    simp [hfail, hcool]
  · intro hcool hnf
    rw [hmain]
    rcases hnf with hnf | hnf <;> simp [hfail, hcool, hnf]
  · intro hcool hnf hinv
    rw [hmain]
    simp [hfail, hcool, hnf, hinv]

/-- Oracle for the C5 witness: the reward trigger reports a cooldown failure. -/
def oracleC5 : Oracle :=
  { oracle0 with trigger := fun _ _ _ => ⟨false, none, none, some "cooldown active"⟩ }

theorem C5_checkin_error_branches_witness :
    handleMessage env0 oracleC5 ⟨⟨3⟩, ⟨4, false, none, none, none⟩, some "/checkin", none⟩
      [("CHECKIN_EVENT_ID:3", "evt1")] =
      ⟨none, [.kvGet (cfgKey .checkin 3), .rewardCall "evt1" 4 3, .send 3 cooldownMsg],
        [("CHECKIN_EVENT_ID:3", "evt1")]⟩ :=
  (C5_checkin_error_branches env0 oracleC5
      ⟨⟨3⟩, ⟨4, false, none, none, none⟩, some "/checkin", none⟩
      [("CHECKIN_EVENT_ID:3", "evt1")] "evt1" ⟨false, none, none, some "cooldown active"⟩
      rfl rfl (by decide) rfl rfl (by decide) (by decide) rfl rfl).1 (by decide)

end TelegramLoyaltyBot
